import Mathlib

/-!
Verification of the xpresser express-server-module provider
(`src/index.ts`, two revisions of `ExpressProvider` in one file).

The provider is configuration wiring: `init` installs middleware on the
express app in a fixed order driven by configuration lookups, `boot`
binds an HTTP listener and optionally an HTTPS listener, and boot-cycle
events are emitted along the way.  We embed the configuration values as
a JavaScript-like value type, each revision of `init` as a function from
a configuration to the list of app-mutating actions it performs, and
`boot`/`startHttpsServer` as functions from a configuration to the trace
of actions on the normal (listener-accepts) path.
-/

/-- Primitive JavaScript values.  `objRef` stands for any non-primitive
reference value (a nested object, array, …) handled opaquely. -/
inductive JSPrim where
  | null
  | undefined
  | bool (b : Bool)
  | str (s : String)
  | num (n : Int)
  | func
  | objRef (id : Nat)
  deriving DecidableEq, Repr

/-- A JavaScript value: a primitive or a one-level object.  One level of
object nesting is all the provider ever inspects; deeper values appear
only opaquely as `JSPrim.objRef`. -/
inductive JSVal where
  | prim (p : JSPrim)
  | obj (fields : List (String × JSPrim))
  deriving DecidableEq, Repr

/-- JavaScript truthiness of a primitive. -/
def JSPrim.truthy : JSPrim → Bool
  | .null => false
  | .undefined => false
  | .bool b => b
  | .str s => s ≠ ""
  | .num n => n ≠ 0
  | .func => true
  | .objRef _ => true

/-- JavaScript truthiness: objects are always truthy. -/
def JSVal.truthy : JSVal → Bool
  | .prim p => p.truthy
  | .obj _ => true

/-- `$.config.get(key, default)`: the configured value unless the key is
missing (modelled as `undefined`), in which case the default. -/
def cfgGet (v d : JSVal) : JSVal :=
  if v = .prim .undefined then d else v

/-- JavaScript `a || b`: `a` when truthy, else `b`. -/
def jsOr (a b : JSVal) : JSVal :=
  if a.truthy then a else b

/-- Property access `v[key]` on a one-level object; `undefined` on
anything else or when the field is absent. -/
def jsGet (v : JSVal) (key : String) : JSVal :=
  match v with
  | .obj fields =>
    match fields.lookup key with
    | some p => .prim p
    | none => .prim .undefined
  | _ => .prim .undefined

/-- `typeof v === "string"`. -/
def JSVal.isStr : JSVal → Bool
  | .prim (.str _) => true
  | _ => false

/-- `typeof v === "function"`. -/
def JSVal.isFunc : JSVal → Bool
  | .prim .func => true
  | _ => false

/-- The string payload of a string value (the empty string otherwise;
only used under an `isStr` guard). -/
def JSVal.strOf : JSVal → String
  | .prim (.str s) => s
  | _ => ""

/-- Template-literal rendering `${v}` of a primitive. -/
def JSPrim.render : JSPrim → String
  | .null => "null"
  | .undefined => "undefined"
  | .bool true => "true"
  | .bool false => "false"
  | .str s => s
  | .num n => toString n
  | .func => "function"
  | .objRef _ => "[object Object]"

/-- Template-literal rendering `${v}` of a value. -/
def JSVal.render : JSVal → String
  | .prim p => p.render
  | .obj _ => "[object Object]"

/-! ## The HTTP-to-HTTPS redirect middleware (src/index.ts lines 66-76 and 426-435) -/

/-- The request fields the redirect middleware reads. -/
structure HttpRequest where
  xForwardedProto : Option String
  secure : Bool
  protocol : String
  hostname : String
  url : String
  deriving DecidableEq, Repr

/-- Outcome of a request middleware: fall through or redirect. -/
inductive MwResult where
  | next
  | redirect (url : String)
  deriving DecidableEq, Repr

/-- Model of JavaScript `s.replace(pat, rep)` with a string pattern:
replace the first occurrence only, leave `s` unchanged if absent. -/
def listReplaceFirst : List Char → List Char → List Char → List Char
  | s, pat, rep =>
    if pat.isPrefixOf s then rep ++ s.drop pat.length
    else
      match s with
      | [] => []
      | c :: rest => c :: listReplaceFirst rest pat rep
  termination_by s => s.length

/-- String-level first-occurrence replacement. -/
def replaceFirst (s pat rep : String) : String :=
  ⟨listReplaceFirst s.data pat.data rep.data⟩

/-- The redirect middleware: pass through secure requests, otherwise
redirect to the rebuilt URL with `http://` replaced by `https://`. -/
def httpToHttpsMiddleware (req : HttpRequest) : MwResult :=
  let isSecure := req.xForwardedProto = some "https" || req.secure
  if isSecure then .next
  else .redirect
    (replaceFirst (req.protocol ++ "://" ++ req.hostname ++ req.url) "http://" "https://")

/-! ## The empty-string-to-null body transform (src/index.ts lines 192-203 and 556-567) -/

/-- `typeof value === "string" && value.trim() === ""`. -/
def isEmptyAfterTrim : JSPrim → Bool
  | .str s => s.trim = ""
  | _ => false

/-- The body transform middleware applied to `req.body` (an object when
a body was parsed, absent otherwise): replaces each top-level property
whose value is a string that trims to empty with `null`. -/
def convertEmptyStringsMiddleware : Option (List (String × JSPrim)) → Option (List (String × JSPrim))
  | none => none
  | some fields =>
    if fields.length ≠ 0 then
      some (fields.map fun kv => if isEmptyAfterTrim kv.2 then (kv.1, JSPrim.null) else kv)
    else some fields

/-! ## The bad-JSON skip handler (src/index.ts lines 152-159 and 512-519) -/

/-- What the error-handling middleware does with its error. -/
inductive ErrNextCall where
  | callNext
  | callNextWith (e : JSVal)
  deriving DecidableEq, Repr

/-- The bad-JSON skip handler: swallow entity-parse failures, forward
everything else. -/
def skipBadJsonHandler (err : JSVal) : ErrNextCall :=
  if err.truthy ∧ (jsGet err "type").truthy ∧ jsGet err "type" = .prim (.str "entity.parse.failed")
  then .callNext
  else .callNextWith err

/-! ## The listener error handlers (src/index.ts lines 229-237 and 334) -/

/-- An error delivered to a listener's error event. -/
structure JsError where
  errno : JSVal
  portField : JSVal
  deriving DecidableEq, Repr

/-- What a listener error handler does. -/
inductive ListenerErrOutcome where
  | exitMsg (msg : String)
  | rejectErr (e : JsError)
  | logOnly (e : JsError)
  deriving DecidableEq, Repr

/-- The HTTP listener's error handler: exit on `EADDRINUSE`, reject the
startup promise otherwise. -/
def httpErrorHandler (err : JsError) : ListenerErrOutcome :=
  if err.errno = .prim (.str "EADDRINUSE") then
    .exitMsg ("Port " ++ err.portField.render ++ " is already in use.")
  else .rejectErr err

/-- The HTTPS listener's error handler is `$.console.logError`: it only
logs; the HTTPS startup promise has no rejection path at all. -/
def httpsErrorHandler (err : JsError) : ListenerErrOutcome :=
  .logOnly err

/-! ## Configuration model

One record holds every configuration key either revision reads, plus the
pieces of the environment `init`/`boot` consult (the filesystem, the
resolved views path, the server engine's base URL).  A missing key is
`JSVal.prim .undefined`. -/

/-- The shape of the `template` configuration object (revision 1 reads
it at key `template`, revision 2 at `server.template`). -/
structure TemplateCfg where
  engine : JSVal
  extension : String
  use : JSVal
  deriving DecidableEq, Repr

/-- All configuration and environment inputs of the provider. -/
structure Config where
  env : String
  basePath : String
  viewsPath : String
  engineBaseUrl : String
  lanIp : JSVal
  existingFiles : List String
  paths_public : Option String
  server_ssl_forceHttpToHttps : JSVal
  server_forceHttpToHttps : JSVal
  server_poweredBy : JSVal
  response_overrideServerName : JSVal
  server_name : JSVal
  server_servePublicFolder : JSVal
  server_servePublicFolderOption : JSVal
  server_use_cors : JSVal
  packages_cors_config : JSVal
  server_configs_cors : JSVal
  server_use_bodyParser : JSVal
  packages_bodyParser_json : JSVal
  packages_bodyParser_urlencoded : JSVal
  server_configs_bodyParser_json : JSVal
  server_configs_bodyParser_urlencoded : JSVal
  template : Option TemplateCfg
  server_template : Option TemplateCfg
  server_convertBodyEmptyStringToNull : JSVal
  server_port : JSVal
  server_domain : JSVal
  log_serverDomainAndPort : JSVal
  server_ssl_enabled : JSVal
  server_ssl_port : JSVal
  server_ssl_files : JSVal
  deriving DecidableEq, Repr

/-- `File.exists($.path.base(".maintenance"))`. -/
def isUnderMaintenance (c : Config) : Bool :=
  (c.basePath ++ "/.maintenance") ∈ c.existingFiles

/-- The default `{ extended: true }` for the urlencoded parser. -/
def extendedTrue : JSVal := .obj [("extended", .bool true)]

/-! ## The actions `init` performs on the express app, in order -/

/-- One app-mutating step of `init` (an `app.use`, `app.set`,
`app.engine`, `app.disable` or boot-cycle emission). -/
inductive InitAction where
  | useHttpToHttpsRedirect
  | usePoweredByHeader (headerName : String) (overrideServer : Bool)
  | disableXPoweredBy
  | useStatic (path : String) (opt : JSVal)
  | useCors (cfg : JSVal)
  | useBodyParserJson (cfg : JSVal)
  | useBodyParserUrlencoded (cfg : JSVal)
  | useSkipBadJsonError
  | registerEngine (ext : String)
  | setViewEngine (v : JSVal)
  | useTemplateModule (path : String)
  | useTemplateFn
  | setViews (p : String)
  | useConvertEmptyStringToNull
  | emit (cycle : String)
  deriving DecidableEq, Repr

/-- `typeof poweredBy === "string" ? poweredBy : "Xpresser"`. -/
def poweredByName (v : JSVal) : String :=
  match v with
  | .prim (.str s) => s
  | _ => "Xpresser"

/-- Revision 1, lines 64-77: the HttpToHttps enforcer, guarded by
`$.config.get("server.ssl.forceHttpToHttps", false)`. -/
def forceHttpsSeg1 (c : Config) : List InitAction :=
  if (cfgGet c.server_ssl_forceHttpToHttps (.prim (.bool false))).truthy then
    [.useHttpToHttpsRedirect]
  else []

/-- Revision 1, lines 85-97: poweredBy header middleware, or disabling
`x-powered-by`; the override flag comes from `response.overrideServerName`. -/
def poweredBySeg1 (c : Config) : List InitAction :=
  if c.server_poweredBy.truthy then
    [.usePoweredByHeader (poweredByName c.server_poweredBy) c.response_overrideServerName.truthy]
  else [.disableXPoweredBy]

/-- Revision 1, lines 102-109: static serving of the public folder,
skipped under maintenance; the flag is `$.config.get("server.servePublicFolder", false)`. -/
def staticSeg1 (c : Config) : List InitAction :=
  match c.paths_public with
  | some p =>
    if ¬ isUnderMaintenance c
        ∧ (cfgGet c.server_servePublicFolder (.prim (.bool false))).truthy
        ∧ p ≠ "" then
      [.useStatic p (cfgGet c.server_servePublicFolderOption (.prim .undefined))]
    else []
  | none => []

/-- Revision 1, lines 121-126: CORS, configured from `packages.cors.config`. -/
def corsSeg1 (c : Config) : List InitAction :=
  if (cfgGet c.server_use_cors (.prim (.bool false))).truthy then
    [.useCors (cfgGet c.packages_cors_config (.prim .undefined))]
  else []

/-- Revision 1, lines 137-160: json parser, urlencoded parser (default
`{ extended: true }` from `$.config.get`) and the bad-JSON skip handler. -/
def bodyParserSeg1 (c : Config) : List InitAction :=
  if c.server_use_bodyParser.truthy then
    [.useBodyParserJson c.packages_bodyParser_json,
     .useBodyParserUrlencoded (cfgGet c.packages_bodyParser_urlencoded extendedTrue),
     .useSkipBadJsonError]
  else []

/-- Lines 165-182 and 525-545 (identical in both revisions): the view
engine setup from a template configuration object, followed by setting
the views path. -/
def templateSeg (t : Option TemplateCfg) (viewsPath : String) : List InitAction :=
  match t with
  | none => []
  | some tc =>
    (if tc.engine.isFunc then
       [.registerEngine tc.extension, .setViewEngine (.prim (.str tc.extension))]
     else if tc.use.isStr then [.useTemplateModule tc.use.strOf]
     else if tc.use.isFunc then [.useTemplateFn]
     else [.setViewEngine tc.engine])
    ++ [.setViews viewsPath]

/-- Lines 187-204 and 550-568 (identical in both revisions): the
empty-string-to-null transform, on by default. -/
def convertSeg (c : Config) : List InitAction :=
  if (cfgGet c.server_convertBodyEmptyStringToNull (.prim (.bool true))).truthy then
    [.useConvertEmptyStringToNull]
  else []

/-- Revision 1 `init` (src/index.ts lines 49-208) as the ordered list
of actions it performs, ending with the `expressInit` emission. -/
def initTrace1 (c : Config) : List InitAction :=
  forceHttpsSeg1 c ++ poweredBySeg1 c ++ staticSeg1 c ++ corsSeg1 c
    ++ bodyParserSeg1 c ++ templateSeg c.template c.viewsPath ++ convertSeg c
    ++ [.emit "expressInit"]

/-- Revision 2, lines 425-436: the enforcer, guarded by
`serverConfig.forceHttpToHttps` (key `server.forceHttpToHttps`). -/
def forceHttpsSeg2 (c : Config) : List InitAction :=
  if c.server_forceHttpToHttps.truthy then [.useHttpToHttpsRedirect] else []

/-- Revision 2, lines 444-457: installed when `server.poweredBy` or
`server.name` is truthy; the override flag comes from `server.name`. -/
def poweredBySeg2 (c : Config) : List InitAction :=
  if c.server_poweredBy.truthy || c.server_name.truthy then
    [.usePoweredByHeader (poweredByName c.server_poweredBy) c.server_name.truthy]
  else [.disableXPoweredBy]

/-- Revision 2, lines 462-470: static serving, flag read directly from
`serverConfig.servePublicFolder`. -/
def staticSeg2 (c : Config) : List InitAction :=
  match c.paths_public with
  | some p =>
    if ¬ isUnderMaintenance c ∧ c.server_servePublicFolder.truthy ∧ p ≠ "" then
      [.useStatic p (cfgGet c.server_servePublicFolderOption (.prim .undefined))]
    else []
  | none => []

/-- Revision 2, lines 482-486: CORS, configured from `server.configs.cors`. -/
def corsSeg2 (c : Config) : List InitAction :=
  if c.server_use_cors.truthy then [.useCors c.server_configs_cors] else []

/-- Revision 2, lines 497-520: parsers configured from
`server.configs.bodyParser.*`; the urlencoded default is applied with
JavaScript `||`. -/
def bodyParserSeg2 (c : Config) : List InitAction :=
  if c.server_use_bodyParser.truthy then
    [.useBodyParserJson c.server_configs_bodyParser_json,
     .useBodyParserUrlencoded (jsOr c.server_configs_bodyParser_urlencoded extendedTrue),
     .useSkipBadJsonError]
  else []

/-- Revision 2 `init` (src/index.ts lines 404-572) as the ordered list
of actions it performs. -/
def initTrace2 (c : Config) : List InitAction :=
  forceHttpsSeg2 c ++ poweredBySeg2 c ++ staticSeg2 c ++ corsSeg2 c
    ++ bodyParserSeg2 c ++ templateSeg c.server_template c.viewsPath ++ convertSeg c
    ++ [.emit "expressInit"]

/-- Canonical slot of each action in the fixed installation order. -/
def InitAction.slot : InitAction → Nat
  | .useHttpToHttpsRedirect => 0
  | .usePoweredByHeader _ _ => 1
  | .disableXPoweredBy => 1
  | .useStatic _ _ => 2
  | .useCors _ => 3
  | .useBodyParserJson _ => 4
  | .useBodyParserUrlencoded _ => 5
  | .useSkipBadJsonError => 6
  | .registerEngine _ => 7
  | .useTemplateModule _ => 8
  | .useTemplateFn => 8
  | .setViewEngine _ => 8
  | .setViews _ => 9
  | .useConvertEmptyStringToNull => 10
  | .emit _ => 11

/-! ## The boot phase -/

/-- The boot cycles this provider adds (src/index.ts lines 40-47 and
391-398). -/
def customBootCyclesList : List String := ["expressInit", "http", "https"]

/-- One step of `boot`/`startHttpsServer` on the normal path. -/
inductive BootAction where
  | createHttpServer
  | emitCycle (cycle : String)
  | httpListen (port : JSVal)
  | logLine (s : String)
  | saveEngineData
  | createHttpsServer
  | httpsListen (port : JSVal)
  | logSuccess (s : String)
  | exitWithError (msg : String)
  | resolveStartup
  deriving DecidableEq, Repr

/-- `$.config.data.server?.port || 80`. -/
def portOf (c : Config) : JSVal :=
  jsOr c.server_port (.prim (.num 80))

/-- `$.config.get("server.ssl.port", 443)`. -/
def httpsPortOf (c : Config) : JSVal :=
  cfgGet c.server_ssl_port (.prim (.num 443))

/-- Model of `path.resolve` from node: an absolute path is returned as
given, a relative one is joined to the working directory. -/
def resolvePath (cwd p : String) : String :=
  if p.data.head? = some '/' then p else cwd ++ "/" ++ p

/-- The logging the HTTP listener's listening callback performs
(src/index.ts lines 239-273). -/
def listeningLogs (c : Config) : List BootAction :=
  (if c.log_serverDomainAndPort.truthy
      || c.engineBaseUrl.trim = "" || c.engineBaseUrl.trim = "/" then
     [.logLine ("Domain: " ++ c.server_domain.render ++ " | Port: "
       ++ (portOf c).render ++ " | BaseUrl: " ++ c.engineBaseUrl.trim)]
   else [.logLine ("Url: " ++ c.engineBaseUrl.trim)])
  ++ (if ¬ c.env = "production" ∧ c.lanIp.truthy then
        [.logLine ("Network: http://" ++ c.lanIp.render ++ ":" ++ (portOf c).render ++ "/")]
      else [])
  ++ (if c.env = "production" then [.logLine "Server started"] else [])
  ++ [.saveEngineData]

/-- `startHttpsServer` (src/index.ts lines 283-341): configuration
checks, each failure terminating the process with a logged message;
on success the HTTPS server is created, the `https` cycle is emitted
and the TLS listener is bound. -/
def startHttpsServerTrace (c : Config) : List BootAction :=
  if c.server_ssl_files = .prim .undefined then
    [.exitWithError "Ssl enabled but has no \x7bserver.ssl.files\x7d config found."]
  else
    let key := jsGet c.server_ssl_files "key"
    let cert := jsGet c.server_ssl_files "cert"
    if ¬ (key.isStr ∧ cert.isStr) then
      [.exitWithError "Config \x7bserver.ssl.files\x7d not configured properly!"]
    else if key.strOf = "" ∨ cert.strOf = "" then
      [.exitWithError "Config \x7bserver.ssl.files\x7d not configured properly!"]
    else
      let kPath := resolvePath c.basePath key.strOf
      let cPath := resolvePath c.basePath cert.strOf
      if kPath ∉ c.existingFiles then
        [.exitWithError ("Key file \x7b" ++ kPath ++ "\x7d not found!")]
      else if cPath ∉ c.existingFiles then
        [.exitWithError ("Cert file \x7b" ++ kPath ++ "\x7d not found!")]
      else
        [.createHttpsServer, .emitCycle "https", .httpsListen (httpsPortOf c),
         .logSuccess "Ssl Enabled."]

/-- Whether the TLS file configuration passes every check of
`startHttpsServer`. -/
def sslFilesOk (c : Config) : Prop :=
  c.server_ssl_files ≠ .prim .undefined
  ∧ (jsGet c.server_ssl_files "key").isStr
  ∧ (jsGet c.server_ssl_files "cert").isStr
  ∧ (jsGet c.server_ssl_files "key").strOf ≠ ""
  ∧ (jsGet c.server_ssl_files "cert").strOf ≠ ""
  ∧ resolvePath c.basePath (jsGet c.server_ssl_files "key").strOf ∈ c.existingFiles
  ∧ resolvePath c.basePath (jsGet c.server_ssl_files "cert").strOf ∈ c.existingFiles

instance (c : Config) : Decidable (sslFilesOk c) := by
  unfold sslFilesOk
  infer_instance

/-- Whether a trace ended in process termination. -/
def endsInExit (l : List BootAction) : Bool :=
  match l.getLast? with
  | some (.exitWithError _) => true
  | _ => false

/-- `boot` (src/index.ts lines 210-281) on the path where the HTTP
listener accepts: create the server, emit `http`, bind the listener,
run the listening callback (logs, then — when `server.ssl.enabled` —
`startHttpsServer`), and resolve the startup promise unless the HTTPS
path terminated the process. -/
def bootTrace (c : Config) : List BootAction :=
  let pre := [.createHttpServer, .emitCycle "http", .httpListen (portOf c)]
    ++ listeningLogs c
  if (cfgGet c.server_ssl_enabled (.prim (.bool false))).truthy then
    let h := startHttpsServerTrace c
    if endsInExit h then pre ++ h else pre ++ h ++ [.resolveStartup]
  else pre ++ [.resolveStartup]

/-! ## Concrete configurations used to evaluate the model -/

/-- The configuration with every key absent and an empty environment. -/
def emptyCfg : Config where
  env := ""
  basePath := ""
  viewsPath := ""
  engineBaseUrl := ""
  lanIp := .prim .undefined
  existingFiles := []
  paths_public := none
  server_ssl_forceHttpToHttps := .prim .undefined
  server_forceHttpToHttps := .prim .undefined
  server_poweredBy := .prim .undefined
  response_overrideServerName := .prim .undefined
  server_name := .prim .undefined
  server_servePublicFolder := .prim .undefined
  server_servePublicFolderOption := .prim .undefined
  server_use_cors := .prim .undefined
  packages_cors_config := .prim .undefined
  server_configs_cors := .prim .undefined
  server_use_bodyParser := .prim .undefined
  packages_bodyParser_json := .prim .undefined
  packages_bodyParser_urlencoded := .prim .undefined
  server_configs_bodyParser_json := .prim .undefined
  server_configs_bodyParser_urlencoded := .prim .undefined
  template := none
  server_template := none
  server_convertBodyEmptyStringToNull := .prim .undefined
  server_port := .prim .undefined
  server_domain := .prim .undefined
  log_serverDomainAndPort := .prim .undefined
  server_ssl_enabled := .prim .undefined
  server_ssl_port := .prim .undefined
  server_ssl_files := .prim .undefined

/-- A configuration with SSL enabled and a valid TLS file pair on disk. -/
def sslOkCfg : Config :=
  { emptyCfg with
    server_ssl_enabled := .prim (.bool true)
    server_ssl_files := .obj [("key", .str "/k.pem"), ("cert", .str "/c.pem")]
    existingFiles := ["/k.pem", "/c.pem"] }

/-- A configuration serving a public folder, not under maintenance. -/
def staticCfg : Config :=
  { emptyCfg with
    server_servePublicFolder := .prim (.bool true)
    paths_public := some "public" }

/-- A configuration setting only `server.ssl.forceHttpToHttps`: the two
revisions of `init` disagree on it. -/
def forceSslOnlyCfg : Config :=
  { emptyCfg with server_ssl_forceHttpToHttps := .prim (.bool true) }

/-! ## Helper lemmas -/

theorem isPrefixOf_append_self (p t : List Char) : p.isPrefixOf (p ++ t) = true := by
  induction p with
  | nil => simp [List.isPrefixOf]
  | cons a as ih => simp [List.isPrefixOf, ih]

theorem listReplaceFirst_append_eq (p t rep : List Char) :
    listReplaceFirst (p ++ t) p rep = rep ++ t := by
  rw [listReplaceFirst.eq_def]
  simp [isPrefixOf_append_self, List.drop_left]

theorem replaceFirst_append_eq (p t rep : String) :
    replaceFirst (p ++ t) p rep = rep ++ t := by
  unfold replaceFirst
  apply String.ext
  show listReplaceFirst (p.data ++ t.data) p.data rep.data = rep.data ++ t.data
  exact listReplaceFirst_append_eq p.data t.data rep.data

/-! ## C9: the HTTP-to-HTTPS redirect middleware -/

/-- C9: the redirect middleware passes a request through unchanged when
the `x-forwarded-proto` header equals "https" or the request is marked
secure; otherwise it redirects to the string built from the request's
protocol, hostname and url with the first occurrence of `http://`
replaced by `https://` — in particular, for an insecure request with
protocol "http" the target is exactly `https://` ++ hostname ++ url. -/
theorem redirect_middleware_spec (req : HttpRequest) :
    ((req.xForwardedProto = some "https" ∨ req.secure = true) →
      httpToHttpsMiddleware req = .next)
    ∧ (req.xForwardedProto ≠ some "https" → req.secure = false →
      httpToHttpsMiddleware req = .redirect
        (replaceFirst (req.protocol ++ "://" ++ req.hostname ++ req.url) "http://" "https://"))
    ∧ (req.protocol = "http" →
      replaceFirst (req.protocol ++ "://" ++ req.hostname ++ req.url) "http://" "https://"
        = "https://" ++ (req.hostname ++ req.url)) := by
  refine ⟨?_, ?_, ?_⟩
  · intro h
    unfold httpToHttpsMiddleware
    rcases h with h | h <;> simp [h]
  · intro h1 h2
    unfold httpToHttpsMiddleware
    simp [h1, h2]
  · intro hp
    have hs : req.protocol ++ "://" ++ req.hostname ++ req.url
        = "http://" ++ (req.hostname ++ req.url) := by
      apply String.ext
      rw [hp]
      show "http".data ++ "://".data ++ req.hostname.data ++ req.url.data
        = "http://".data ++ (req.hostname.data ++ req.url.data)
      have hd : ("http".data ++ "://".data : List Char) = "http://".data := by decide
      rw [hd, List.append_assoc]
    rw [hs]
    exact replaceFirst_append_eq "http://" (req.hostname ++ req.url) "https://"

/-- Witness for C9 at a concrete insecure request with protocol http. -/
theorem redirect_middleware_spec_witness :
    httpToHttpsMiddleware ⟨none, false, "http", "example.com", "/a"⟩
      = .redirect (replaceFirst ("http" ++ "://" ++ "example.com" ++ "/a") "http://" "https://")
    ∧ replaceFirst ("http" ++ "://" ++ "example.com" ++ "/a") "http://" "https://"
      = "https://" ++ ("example.com" ++ "/a") := by
  refine ⟨?_, ?_⟩
  · exact (redirect_middleware_spec ⟨none, false, "http", "example.com", "/a"⟩).2.1
      (by decide) rfl
  · exact (redirect_middleware_spec ⟨none, false, "http", "example.com", "/a"⟩).2.2 rfl

/-! ## C8: the empty-string-to-null body transform -/

/-- The transform on a present body is a map over its entries. -/
theorem convertEmptyStrings_some (fields : List (String × JSPrim)) :
    convertEmptyStringsMiddleware (some fields)
      = some (fields.map fun kv => if isEmptyAfterTrim kv.2 then (kv.1, JSPrim.null) else kv) := by
  unfold convertEmptyStringsMiddleware
  by_cases h : fields.length ≠ 0
  · simp [h]
  · simp only [ne_eq, not_not, List.length_eq_zero] at h
    subst h
    simp

/-- C8: the empty-string-to-null middleware replaces exactly those
top-level body properties whose value is a string that is empty after
trimming with null, leaves every other property (and every key)
unchanged, preserves the number of properties, and passes absent or
empty-object bodies through unmodified. -/
theorem convert_empty_strings_spec (fields : List (String × JSPrim)) :
    convertEmptyStringsMiddleware none = none
    ∧ convertEmptyStringsMiddleware (some []) = some []
    ∧ ∃ out, convertEmptyStringsMiddleware (some fields) = some out
      ∧ out.length = fields.length
      ∧ (∀ i : Nat, out[i]?.map Prod.fst = fields[i]?.map Prod.fst)
      ∧ (∀ i : Nat, out[i]?.map Prod.snd = fields[i]?.map
          (fun kv : String × JSPrim =>
            if isEmptyAfterTrim kv.2 then JSPrim.null else kv.2)) := by
  refine ⟨rfl, by simp [convertEmptyStringsMiddleware], ?_⟩
  refine ⟨_, convertEmptyStrings_some fields, by simp, ?_, ?_⟩
  · intro i
    rw [List.getElem?_map]
    cases h : fields[i]? with
    | none => rfl
    | some kv =>
      simp only [Option.map_map, Option.map_some]
      by_cases he : isEmptyAfterTrim kv.2 <;> simp [he, Function.comp]
  · intro i
    rw [List.getElem?_map]
    cases h : fields[i]? with
    | none => rfl
    | some kv =>
      simp only [Option.map_map, Option.map_some]
      by_cases he : isEmptyAfterTrim kv.2 <;> simp [he, Function.comp]

/-! ## C10: the bad-JSON skip handler -/

/-- C10: the body-parser error-skipping handler swallows exactly those
errors whose `type` field equals "entity.parse.failed" (calling `next`
with no error) and forwards every other error unchanged. -/
theorem skip_bad_json_spec (e : JSVal) :
    (skipBadJsonHandler e = .callNext ↔ jsGet e "type" = .prim (.str "entity.parse.failed"))
    ∧ (jsGet e "type" ≠ .prim (.str "entity.parse.failed") →
        skipBadJsonHandler e = .callNextWith e) := by
  constructor
  · unfold skipBadJsonHandler
    split_ifs with h
    · simp [h.2.2]
    · constructor
      · intro hc
        cases hc
      · intro heq
        exfalso
        apply h
        refine ⟨?_, ?_, heq⟩
        · cases e with
          | prim p => simp [jsGet] at heq
          | obj fs => simp [JSVal.truthy]
        · rw [heq]
          decide
  · intro hne
    unfold skipBadJsonHandler
    split_ifs with h
    · exact absurd h.2.2 hne
    · rfl

/-- Witness for C10: a concrete entity-parse error is swallowed and a
concrete other error is forwarded unchanged. -/
theorem skip_bad_json_spec_witness :
    skipBadJsonHandler (.obj [("type", .str "entity.parse.failed")]) = .callNext
    ∧ skipBadJsonHandler (.obj [("type", .str "other")])
        = .callNextWith (.obj [("type", .str "other")]) := by
  constructor
  · exact (skip_bad_json_spec (.obj [("type", .str "entity.parse.failed")])).1.mpr (by decide)
  · exact (skip_bad_json_spec (.obj [("type", .str "other")])).2 (by decide)

/-! ## C3 and C5: listener error handling -/

/-- C3 counterexample: a non-`EADDRINUSE` error on the HTTPS listener is
only logged — contrary to the claim, it is not rejected through the
startup promise (the HTTPS promise has no rejection path). -/
theorem https_error_not_rejected_cex :
    httpsErrorHandler ⟨.prim (.str "ECONNRESET"), .prim .undefined⟩
        = .logOnly ⟨.prim (.str "ECONNRESET"), .prim .undefined⟩
    ∧ httpsErrorHandler ⟨.prim (.str "ECONNRESET"), .prim .undefined⟩
        ≠ .rejectErr ⟨.prim (.str "ECONNRESET"), .prim .undefined⟩ := by
  decide

/-- C3 (amended): every HTTP-listener error other than `EADDRINUSE`
rejects the HTTP startup promise with that error, while HTTPS-listener
errors are only logged and never reject. -/
theorem listener_error_handlers_amended (e : JsError)
    (h : e.errno ≠ .prim (.str "EADDRINUSE")) :
    httpErrorHandler e = .rejectErr e ∧ httpsErrorHandler e = .logOnly e := by
  unfold httpErrorHandler httpsErrorHandler
  rw [if_neg h]
  exact ⟨rfl, rfl⟩

/-- Witness for the amended C3 at a concrete error. -/
theorem listener_error_handlers_amended_witness :
    httpErrorHandler ⟨.prim (.str "EACCES"), .prim (.num 80)⟩
      = .rejectErr ⟨.prim (.str "EACCES"), .prim (.num 80)⟩ :=
  (listener_error_handlers_amended ⟨.prim (.str "EACCES"), .prim (.num 80)⟩ (by decide)).1

/-- C5: on an `EADDRINUSE` error the HTTP listener's handler exits with
a message naming the port and does not reject the startup promise. -/
theorem eaddrinuse_exit_spec (e : JsError)
    (h : e.errno = .prim (.str "EADDRINUSE")) :
    httpErrorHandler e = .exitMsg ("Port " ++ e.portField.render ++ " is already in use.")
    ∧ ∀ x, httpErrorHandler e ≠ .rejectErr x := by
  unfold httpErrorHandler
  rw [if_pos h]
  exact ⟨rfl, fun x hx => by cases hx⟩

/-- Witness for C5 at a concrete error carrying port 8080. -/
theorem eaddrinuse_exit_spec_witness :
    httpErrorHandler ⟨.prim (.str "EADDRINUSE"), .prim (.num 8080)⟩
      = .exitMsg "Port 8080 is already in use." := by
  have h := (eaddrinuse_exit_spec ⟨.prim (.str "EADDRINUSE"), .prim (.num 8080)⟩ rfl).1
  simpa using h

/-! ## Membership characterizations of the init segments -/

theorem mem_forceHttpsSeg1 (c : Config) (a : InitAction) :
    a ∈ forceHttpsSeg1 c ↔
      (cfgGet c.server_ssl_forceHttpToHttps (.prim (.bool false))).truthy = true
        ∧ a = .useHttpToHttpsRedirect := by
  unfold forceHttpsSeg1
  split_ifs with h <;> simp_all

theorem mem_poweredBySeg1 (c : Config) (a : InitAction) :
    a ∈ poweredBySeg1 c ↔
      (c.server_poweredBy.truthy = true
        ∧ a = .usePoweredByHeader (poweredByName c.server_poweredBy)
            c.response_overrideServerName.truthy)
      ∨ (c.server_poweredBy.truthy = false ∧ a = .disableXPoweredBy) := by
  unfold poweredBySeg1
  split_ifs with h <;> simp_all

theorem mem_staticSeg1 (c : Config) (a : InitAction) :
    a ∈ staticSeg1 c ↔
      ∃ p, c.paths_public = some p
        ∧ isUnderMaintenance c = false
        ∧ (cfgGet c.server_servePublicFolder (.prim (.bool false))).truthy = true
        ∧ p ≠ ""
        ∧ a = .useStatic p (cfgGet c.server_servePublicFolderOption (.prim .undefined)) := by
  unfold staticSeg1
  rcases hp : c.paths_public with _ | p
  · simp
  · dsimp only
    split_ifs with h <;> simp_all

theorem mem_corsSeg1 (c : Config) (a : InitAction) :
    a ∈ corsSeg1 c ↔
      (cfgGet c.server_use_cors (.prim (.bool false))).truthy = true
        ∧ a = .useCors (cfgGet c.packages_cors_config (.prim .undefined)) := by
  unfold corsSeg1
  split_ifs with h <;> simp_all

theorem mem_bodyParserSeg1 (c : Config) (a : InitAction) :
    a ∈ bodyParserSeg1 c ↔
      c.server_use_bodyParser.truthy = true
        ∧ (a = .useBodyParserJson c.packages_bodyParser_json
          ∨ a = .useBodyParserUrlencoded (cfgGet c.packages_bodyParser_urlencoded extendedTrue)
          ∨ a = .useSkipBadJsonError) := by
  unfold bodyParserSeg1
  split_ifs with h <;> simp_all

theorem mem_templateSeg (t : Option TemplateCfg) (vp : String) (a : InitAction) :
    a ∈ templateSeg t vp ↔
      ∃ tc, t = some tc ∧
        ((tc.engine.isFunc = true
            ∧ (a = .registerEngine tc.extension
              ∨ a = .setViewEngine (.prim (.str tc.extension))))
          ∨ (tc.engine.isFunc = false ∧ tc.use.isStr = true
              ∧ a = .useTemplateModule tc.use.strOf)
          ∨ (tc.engine.isFunc = false ∧ tc.use.isStr = false ∧ tc.use.isFunc = true
              ∧ a = .useTemplateFn)
          ∨ (tc.engine.isFunc = false ∧ tc.use.isStr = false ∧ tc.use.isFunc = false
              ∧ a = .setViewEngine tc.engine)
          ∨ a = .setViews vp) := by
  unfold templateSeg
  rcases t with _ | tc
  · simp
  · dsimp only
    split_ifs with h1 h2 h3 <;> simp_all <;> tauto

theorem mem_convertSeg (c : Config) (a : InitAction) :
    a ∈ convertSeg c ↔
      (cfgGet c.server_convertBodyEmptyStringToNull (.prim (.bool true))).truthy = true
        ∧ a = .useConvertEmptyStringToNull := by
  unfold convertSeg
  split_ifs with h <;> simp_all

theorem mem_forceHttpsSeg2 (c : Config) (a : InitAction) :
    a ∈ forceHttpsSeg2 c ↔
      c.server_forceHttpToHttps.truthy = true ∧ a = .useHttpToHttpsRedirect := by
  unfold forceHttpsSeg2
  split_ifs with h <;> simp_all

theorem mem_poweredBySeg2 (c : Config) (a : InitAction) :
    a ∈ poweredBySeg2 c ↔
      ((c.server_poweredBy.truthy = true ∨ c.server_name.truthy = true)
        ∧ a = .usePoweredByHeader (poweredByName c.server_poweredBy) c.server_name.truthy)
      ∨ (c.server_poweredBy.truthy = false ∧ c.server_name.truthy = false
          ∧ a = .disableXPoweredBy) := by
  unfold poweredBySeg2
  split_ifs with h
  · rcases (Bool.or_eq_true _ _).mp h with h1 | h1 <;> simp [h1]
  · rw [Bool.or_eq_true] at h
    push_neg at h
    simp_all

theorem mem_staticSeg2 (c : Config) (a : InitAction) :
    a ∈ staticSeg2 c ↔
      ∃ p, c.paths_public = some p
        ∧ isUnderMaintenance c = false
        ∧ c.server_servePublicFolder.truthy = true
        ∧ p ≠ ""
        ∧ a = .useStatic p (cfgGet c.server_servePublicFolderOption (.prim .undefined)) := by
  unfold staticSeg2
  rcases hp : c.paths_public with _ | p
  · simp
  · dsimp only
    split_ifs with h <;> simp_all

theorem mem_corsSeg2 (c : Config) (a : InitAction) :
    a ∈ corsSeg2 c ↔
      c.server_use_cors.truthy = true ∧ a = .useCors c.server_configs_cors := by
  unfold corsSeg2
  split_ifs with h <;> simp_all

theorem mem_bodyParserSeg2 (c : Config) (a : InitAction) :
    a ∈ bodyParserSeg2 c ↔
      c.server_use_bodyParser.truthy = true
        ∧ (a = .useBodyParserJson c.server_configs_bodyParser_json
          ∨ a = .useBodyParserUrlencoded (jsOr c.server_configs_bodyParser_urlencoded extendedTrue)
          ∨ a = .useSkipBadJsonError) := by
  unfold bodyParserSeg2
  split_ifs with h <;> simp_all

/-! ## C7: maintenance gating of the static middleware -/

theorem truthy_cfgGet_bool_false (v : JSVal) :
    (cfgGet v (.prim (.bool false))).truthy = v.truthy := by
  unfold cfgGet
  split_ifs with h
  · rw [h]
    decide
  · rfl

/-- C7: with `server.servePublicFolder` enabled and a public path
configured, each revision of `init` installs the static file-serving
middleware if and only if no `.maintenance` file exists at the
application base path. -/
theorem static_maintenance_spec (c : Config) (p : String)
    (hp : c.paths_public = some p) (hpne : p ≠ "")
    (hs : c.server_servePublicFolder.truthy = true) :
    ((∃ opt, InitAction.useStatic p opt ∈ initTrace1 c) ↔ isUnderMaintenance c = false)
    ∧ ((∃ opt, InitAction.useStatic p opt ∈ initTrace2 c) ↔ isUnderMaintenance c = false) := by
  constructor
  · have hred : ∀ opt, (InitAction.useStatic p opt ∈ initTrace1 c
        ↔ InitAction.useStatic p opt ∈ staticSeg1 c) := by
      intro opt
      simp [initTrace1, List.mem_append, mem_forceHttpsSeg1, mem_poweredBySeg1,
        mem_corsSeg1, mem_bodyParserSeg1, mem_templateSeg, mem_convertSeg]
    rw [exists_congr hred]
    constructor
    · rintro ⟨opt, hmem⟩
      rw [mem_staticSeg1] at hmem
      obtain ⟨q, hq, hm, -, -, -⟩ := hmem
      exact hm
    · intro hm
      refine ⟨_, (mem_staticSeg1 c _).mpr ⟨p, hp, hm, ?_, hpne, rfl⟩⟩
      rw [truthy_cfgGet_bool_false]
      exact hs
  · have hred : ∀ opt, (InitAction.useStatic p opt ∈ initTrace2 c
        ↔ InitAction.useStatic p opt ∈ staticSeg2 c) := by
      intro opt
      simp [initTrace2, List.mem_append, mem_forceHttpsSeg2, mem_poweredBySeg2,
        mem_corsSeg2, mem_bodyParserSeg2, mem_templateSeg, mem_convertSeg]
    rw [exists_congr hred]
    constructor
    · rintro ⟨opt, hmem⟩
      rw [mem_staticSeg2] at hmem
      obtain ⟨q, hq, hm, -, -, -⟩ := hmem
      exact hm
    · intro hm
      exact ⟨_, (mem_staticSeg2 c _).mpr ⟨p, hp, hm, hs, hpne, rfl⟩⟩

/-- Witness for C7: with the public folder configured and no
maintenance file, the static middleware is installed by both revisions. -/
theorem static_maintenance_spec_witness :
    (∃ opt, InitAction.useStatic "public" opt ∈ initTrace1 staticCfg)
    ∧ (∃ opt, InitAction.useStatic "public" opt ∈ initTrace2 staticCfg) := by
  have h := static_maintenance_spec staticCfg "public" rfl (by decide) (by decide)
  exact ⟨h.1.mpr (by decide), h.2.mpr (by decide)⟩

/-! ## C4: invalid TLS configuration terminates the process -/

/-- C4: when the TLS file configuration fails any of the checks —
`server.ssl.files` absent, key or cert not a string, key or cert empty,
or a resolved file missing on disk — `startHttpsServer` terminates the
process with a logged error and neither creates nor binds the HTTPS
server. -/
theorem ssl_invalid_exits_spec (c : Config) (h : ¬ sslFilesOk c) :
    (∃ m, startHttpsServerTrace c = [.exitWithError m])
    ∧ BootAction.createHttpsServer ∉ startHttpsServerTrace c
    ∧ ∀ q, BootAction.httpsListen q ∉ startHttpsServerTrace c := by
  have hx : ∃ m, startHttpsServerTrace c = [.exitWithError m] := by
    unfold startHttpsServerTrace
    dsimp only
    split_ifs with h1 h2 h3 h4 h5
    all_goals try exact ⟨_, rfl⟩
    exfalso
    apply h
    unfold sslFilesOk
    refine ⟨?_, ?_, ?_, ?_, ?_, ?_, ?_⟩ <;> tauto
  obtain ⟨m, hm⟩ := hx
  refine ⟨⟨m, hm⟩, ?_, ?_⟩
  · rw [hm]
    simp
  · intro q
    rw [hm]
    simp

/-- Witness for C4: with no `server.ssl.files` configured the HTTPS
startup immediately exits and never creates the server. -/
theorem ssl_invalid_exits_spec_witness :
    (∃ m, startHttpsServerTrace emptyCfg = [.exitWithError m])
    ∧ BootAction.createHttpsServer ∉ startHttpsServerTrace emptyCfg :=
  ⟨(ssl_invalid_exits_spec emptyCfg (by decide)).1,
   (ssl_invalid_exits_spec emptyCfg (by decide)).2.1⟩

/-! ## C2: boot cycles and their emission order -/

/-- With a valid TLS configuration `startHttpsServer` creates the HTTPS
server, emits the `https` cycle and binds the TLS listener, in that
order. -/
theorem startHttps_ok_trace (c : Config) (h : sslFilesOk c) :
    startHttpsServerTrace c
      = [.createHttpsServer, .emitCycle "https", .httpsListen (httpsPortOf c),
         .logSuccess "Ssl Enabled."] := by
  obtain ⟨h1, h2, h3, h4, h5, h6, h7⟩ := h
  unfold startHttpsServerTrace
  dsimp only
  rw [if_neg h1, if_neg (not_not_intro ⟨h2, h3⟩), if_neg (not_or.mpr ⟨h4, h5⟩),
    if_neg (not_not_intro h6), if_neg (not_not_intro h7)]

/-- The listening callback's log lines never emit a boot cycle. -/
theorem emit_not_in_listeningLogs (c : Config) (s : String) :
    BootAction.emitCycle s ∉ listeningLogs c := by
  unfold listeningLogs
  split_ifs <;> simp

/-- C2: the provider exposes exactly the boot cycles `expressInit`,
`http` and `https`; `init` emits `expressInit` last, after all
middleware actions and emits nothing else; `boot` emits `http` after
creating the HTTP server and before binding its listener; and when
`server.ssl.enabled` is set (and only then) with a valid TLS
configuration, `https` is emitted after the HTTP listener's callback
has run, after the HTTPS server is created and before its listener is
bound. -/
theorem boot_cycles_spec (c : Config) :
    customBootCyclesList = ["expressInit", "http", "https"]
    ∧ (∃ l, initTrace1 c = l ++ [.emit "expressInit"] ∧ ∀ s, InitAction.emit s ∉ l)
    ∧ (bootTrace c).take 3 = [.createHttpServer, .emitCycle "http", .httpListen (portOf c)]
    ∧ (BootAction.emitCycle "https" ∈ bootTrace c →
        (cfgGet c.server_ssl_enabled (.prim (.bool false))).truthy = true)
    ∧ ((cfgGet c.server_ssl_enabled (.prim (.bool false))).truthy = true → sslFilesOk c →
        ∃ pre, bootTrace c
            = pre ++ [.createHttpsServer, .emitCycle "https", .httpsListen (httpsPortOf c),
                .logSuccess "Ssl Enabled.", .resolveStartup]
          ∧ .httpListen (portOf c) ∈ pre
          ∧ BootAction.emitCycle "https" ∉ pre) := by
  refine ⟨rfl, ?_, ?_, ?_, ?_⟩
  · refine ⟨forceHttpsSeg1 c ++ poweredBySeg1 c ++ staticSeg1 c ++ corsSeg1 c
      ++ bodyParserSeg1 c ++ templateSeg c.template c.viewsPath ++ convertSeg c, rfl, ?_⟩
    intro s
    simp [List.mem_append, mem_forceHttpsSeg1, mem_poweredBySeg1, mem_staticSeg1,
      mem_corsSeg1, mem_bodyParserSeg1, mem_templateSeg, mem_convertSeg]
  · unfold bootTrace
    dsimp only
    split_ifs <;> simp
  · intro hmem
    by_contra hne
    rw [Bool.not_eq_true] at hne
    unfold bootTrace at hmem
    dsimp only at hmem
    rw [hne] at hmem
    rw [if_neg (by simp)] at hmem
    simp only [List.append_assoc, List.mem_append, List.mem_cons,
      List.mem_singleton, List.not_mem_nil] at hmem
    rcases hmem with hmem | hmem | hmem | hmem | hmem <;>
      first
        | exact (emit_not_in_listeningLogs c "https") hmem
        | simp_all
  · intro hen hok
    refine ⟨[.createHttpServer, .emitCycle "http", .httpListen (portOf c)]
        ++ listeningLogs c, ?_, ?_, ?_⟩
    · unfold bootTrace
      dsimp only
      rw [hen, if_pos rfl, startHttps_ok_trace c hok]
      rw [show endsInExit [BootAction.createHttpsServer, .emitCycle "https",
          .httpsListen (httpsPortOf c), .logSuccess "Ssl Enabled."] = false from rfl]
      simp
    · simp
    · simp [emit_not_in_listeningLogs c "https"]

/-- Witness for C2 on a configuration with SSL enabled and valid TLS
files: the `https` emission sits between server creation and listener
binding, after the HTTP listener's callback. -/
theorem boot_cycles_spec_witness :
    ∃ pre, bootTrace sslOkCfg
        = pre ++ [.createHttpsServer, .emitCycle "https", .httpsListen (httpsPortOf sslOkCfg),
            .logSuccess "Ssl Enabled.", .resolveStartup]
      ∧ BootAction.httpListen (portOf sslOkCfg) ∈ pre
      ∧ BootAction.emitCycle "https" ∉ pre :=
  (boot_cycles_spec sslOkCfg).2.2.2.2 (by decide) (by decide)

/-! ## C1: fixed middleware installation order with exact guards -/

theorem pairwise_append_slots (k : Nat) {l₁ l₂ : List InitAction}
    (h₁ : List.Pairwise (fun a b => a.slot < b.slot) l₁)
    (h₂ : List.Pairwise (fun a b => a.slot < b.slot) l₂)
    (hb₁ : ∀ a ∈ l₁, a.slot < k) (hb₂ : ∀ b ∈ l₂, k ≤ b.slot) :
    List.Pairwise (fun a b => a.slot < b.slot) (l₁ ++ l₂) := by
  rw [List.pairwise_append]
  exact ⟨h₁, h₂, fun a ha b hb => Nat.lt_of_lt_of_le (hb₁ a ha) (hb₂ b hb)⟩

theorem seg1_slot_force (c : Config) (a : InitAction) (h : a ∈ forceHttpsSeg1 c) :
    a.slot = 0 := by
  rw [mem_forceHttpsSeg1] at h
  rcases h with ⟨-, rfl⟩
  rfl

theorem seg1_slot_powered (c : Config) (a : InitAction) (h : a ∈ poweredBySeg1 c) :
    a.slot = 1 := by
  rw [mem_poweredBySeg1] at h
  rcases h with ⟨-, rfl⟩ | ⟨-, rfl⟩ <;> rfl

theorem seg1_slot_static (c : Config) (a : InitAction) (h : a ∈ staticSeg1 c) :
    a.slot = 2 := by
  rw [mem_staticSeg1] at h
  obtain ⟨p, -, -, -, -, rfl⟩ := h
  rfl

theorem seg1_slot_cors (c : Config) (a : InitAction) (h : a ∈ corsSeg1 c) :
    a.slot = 3 := by
  rw [mem_corsSeg1] at h
  rcases h with ⟨-, rfl⟩
  rfl

theorem seg1_slot_bodyParser (c : Config) (a : InitAction) (h : a ∈ bodyParserSeg1 c) :
    4 ≤ a.slot ∧ a.slot ≤ 6 := by
  rw [mem_bodyParserSeg1] at h
  rcases h with ⟨-, rfl | rfl | rfl⟩ <;> simp [InitAction.slot]

theorem seg_slot_template (t : Option TemplateCfg) (vp : String) (a : InitAction)
    (h : a ∈ templateSeg t vp) : 7 ≤ a.slot ∧ a.slot ≤ 9 := by
  rw [mem_templateSeg] at h
  obtain ⟨tc, -, hd⟩ := h
  rcases hd with ⟨-, rfl | rfl⟩ | ⟨-, -, rfl⟩ | ⟨-, -, -, rfl⟩ | ⟨-, -, -, rfl⟩ | rfl <;>
    simp [InitAction.slot]

theorem seg_slot_convert (c : Config) (a : InitAction) (h : a ∈ convertSeg c) :
    a.slot = 10 := by
  rw [mem_convertSeg] at h
  rcases h with ⟨-, rfl⟩
  rfl

theorem pw_forceHttpsSeg1 (c : Config) :
    List.Pairwise (fun a b => InitAction.slot a < InitAction.slot b) (forceHttpsSeg1 c) := by
  unfold forceHttpsSeg1
  split_ifs <;> simp

theorem pw_poweredBySeg1 (c : Config) :
    List.Pairwise (fun a b => InitAction.slot a < InitAction.slot b) (poweredBySeg1 c) := by
  unfold poweredBySeg1
  split_ifs <;> simp

theorem pw_staticSeg1 (c : Config) :
    List.Pairwise (fun a b => InitAction.slot a < InitAction.slot b) (staticSeg1 c) := by
  unfold staticSeg1
  rcases c.paths_public with _ | p
  · simp
  · dsimp only
    split_ifs <;> simp

theorem pw_corsSeg1 (c : Config) :
    List.Pairwise (fun a b => InitAction.slot a < InitAction.slot b) (corsSeg1 c) := by
  unfold corsSeg1
  split_ifs <;> simp

theorem pw_bodyParserSeg1 (c : Config) :
    List.Pairwise (fun a b => InitAction.slot a < InitAction.slot b) (bodyParserSeg1 c) := by
  unfold bodyParserSeg1
  split_ifs <;> simp [InitAction.slot]

theorem pw_templateSeg (t : Option TemplateCfg) (vp : String) :
    List.Pairwise (fun a b => InitAction.slot a < InitAction.slot b) (templateSeg t vp) := by
  unfold templateSeg
  rcases t with _ | tc
  · simp
  · dsimp only
    split_ifs <;> simp [InitAction.slot]

theorem pw_convertSeg (c : Config) :
    List.Pairwise (fun a b => InitAction.slot a < InitAction.slot b) (convertSeg c) := by
  unfold convertSeg
  split_ifs <;> simp

/-- The ordered-installation part of C1: the slots of the actions of
revision 1 `init` are strictly increasing along the trace. -/
theorem initTrace1_ordered (c : Config) :
    List.Pairwise (fun a b => InitAction.slot a < InitAction.slot b) (initTrace1 c) := by
  rw [initTrace1]
  refine pairwise_append_slots 11 ?_ ?_ ?_ ?_
  · refine pairwise_append_slots 10 ?_ (pw_convertSeg c) ?_ ?_
    · refine pairwise_append_slots 7 ?_ (pw_templateSeg c.template c.viewsPath) ?_ ?_
      · refine pairwise_append_slots 4 ?_ (pw_bodyParserSeg1 c) ?_ ?_
        · refine pairwise_append_slots 3 ?_ (pw_corsSeg1 c) ?_ ?_
          · refine pairwise_append_slots 2 ?_ (pw_staticSeg1 c) ?_ ?_
            · exact pairwise_append_slots 1 (pw_forceHttpsSeg1 c) (pw_poweredBySeg1 c)
                (fun a ha => by rw [seg1_slot_force c a ha]; decide)
                (fun b hb => by rw [seg1_slot_powered c b hb])
            · intro a ha
              rcases List.mem_append.mp ha with ha | ha
              · have := seg1_slot_force c a ha
                omega
              · have := seg1_slot_powered c a ha
                omega
            · intro b hb
              rw [seg1_slot_static c b hb]
          · intro a ha
            rcases List.mem_append.mp ha with ha | ha
            · rcases List.mem_append.mp ha with ha | ha
              · have := seg1_slot_force c a ha
                omega
              · have := seg1_slot_powered c a ha
                omega
            · have := seg1_slot_static c a ha
              omega
          · intro b hb
            rw [seg1_slot_cors c b hb]
        · intro a ha
          rcases List.mem_append.mp ha with ha | ha
          · rcases List.mem_append.mp ha with ha | ha
            · rcases List.mem_append.mp ha with ha | ha
              · have := seg1_slot_force c a ha
                omega
              · have := seg1_slot_powered c a ha
                omega
            · have := seg1_slot_static c a ha
              omega
          · have := seg1_slot_cors c a ha
            omega
        · intro b hb
          have := (seg1_slot_bodyParser c b hb).1
          omega
      · intro a ha
        rcases List.mem_append.mp ha with ha | ha
        · rcases List.mem_append.mp ha with ha | ha
          · rcases List.mem_append.mp ha with ha | ha
            · rcases List.mem_append.mp ha with ha | ha
              · have := seg1_slot_force c a ha
                omega
              · have := seg1_slot_powered c a ha
                omega
            · have := seg1_slot_static c a ha
              omega
          · have := seg1_slot_cors c a ha
            omega
        · have := (seg1_slot_bodyParser c a ha).2
          omega
      · intro b hb
        have := (seg_slot_template c.template c.viewsPath b hb).1
        omega
    · intro a ha
      rcases List.mem_append.mp ha with ha | ha
      · rcases List.mem_append.mp ha with ha | ha
        · rcases List.mem_append.mp ha with ha | ha
          · rcases List.mem_append.mp ha with ha | ha
            · rcases List.mem_append.mp ha with ha | ha
              · have := seg1_slot_force c a ha
                omega
              · have := seg1_slot_powered c a ha
                omega
            · have := seg1_slot_static c a ha
              omega
          · have := seg1_slot_cors c a ha
            omega
        · have := (seg1_slot_bodyParser c a ha).2
          omega
      · have := (seg_slot_template c.template c.viewsPath a ha).2
        omega
    · intro b hb
      rw [seg_slot_convert c b hb]
  · simp
  · intro a ha
    rcases List.mem_append.mp ha with ha | ha
    · rcases List.mem_append.mp ha with ha | ha
      · rcases List.mem_append.mp ha with ha | ha
        · rcases List.mem_append.mp ha with ha | ha
          · rcases List.mem_append.mp ha with ha | ha
            · rcases List.mem_append.mp ha with ha | ha
              · have := seg1_slot_force c a ha
                omega
              · have := seg1_slot_powered c a ha
                omega
            · have := seg1_slot_static c a ha
              omega
          · have := seg1_slot_cors c a ha
            omega
        · have := (seg1_slot_bodyParser c a ha).2
          omega
      · have := (seg_slot_template c.template c.viewsPath a ha).2
        omega
    · have := seg_slot_convert c a ha
      omega
  · intro b hb
    rcases List.mem_singleton.mp hb with rfl
    simp [InitAction.slot]

/-- C1: revision 1 `init` installs the middleware in the fixed order
redirect, powered-by policy, static, CORS, body parsing (json,
urlencoded, bad-JSON skip), view engine, empty-string-to-null (the
pairwise slot ordering), and each conditional middleware appears in the
trace exactly when its configuration guard enables it. -/
theorem init_middleware_spec (c : Config) :
    (InitAction.useHttpToHttpsRedirect ∈ initTrace1 c
      ↔ (cfgGet c.server_ssl_forceHttpToHttps (.prim (.bool false))).truthy = true)
    ∧ ((∃ n o, InitAction.usePoweredByHeader n o ∈ initTrace1 c)
      ↔ c.server_poweredBy.truthy = true)
    ∧ (InitAction.disableXPoweredBy ∈ initTrace1 c ↔ c.server_poweredBy.truthy = false)
    ∧ ((∃ p o, InitAction.useStatic p o ∈ initTrace1 c)
      ↔ ∃ p, c.paths_public = some p ∧ isUnderMaintenance c = false
          ∧ (cfgGet c.server_servePublicFolder (.prim (.bool false))).truthy = true ∧ p ≠ "")
    ∧ ((∃ v, InitAction.useCors v ∈ initTrace1 c)
      ↔ (cfgGet c.server_use_cors (.prim (.bool false))).truthy = true)
    ∧ ((∃ v, InitAction.useBodyParserJson v ∈ initTrace1 c)
      ↔ c.server_use_bodyParser.truthy = true)
    ∧ ((∃ v, InitAction.useBodyParserUrlencoded v ∈ initTrace1 c)
      ↔ c.server_use_bodyParser.truthy = true)
    ∧ (InitAction.useSkipBadJsonError ∈ initTrace1 c ↔ c.server_use_bodyParser.truthy = true)
    ∧ ((∃ p, InitAction.setViews p ∈ initTrace1 c) ↔ ∃ tc, c.template = some tc)
    ∧ (InitAction.useConvertEmptyStringToNull ∈ initTrace1 c
      ↔ (cfgGet c.server_convertBodyEmptyStringToNull (.prim (.bool true))).truthy = true)
    ∧ List.Pairwise (fun a b => InitAction.slot a < InitAction.slot b) (initTrace1 c) := by
  refine ⟨?_, ?_, ?_, ?_, ?_, ?_, ?_, ?_, ?_, ?_, initTrace1_ordered c⟩ <;>
    simp [initTrace1, List.mem_append, mem_forceHttpsSeg1, mem_poweredBySeg1, mem_staticSeg1,
      mem_corsSeg1, mem_bodyParserSeg1, mem_templateSeg, mem_convertSeg]
  constructor
  · rintro ⟨p, o, q, hq, hm, hs, hne, rfl, rfl⟩
    exact ⟨_, hq, hm, hs, hne⟩
  · rintro ⟨p, hq, hm, hs, hne⟩
    exact ⟨p, _, p, hq, hm, hs, hne, rfl, rfl⟩

/-! ## C6: the two revisions of init are not behaviorally equivalent -/

/-- C6 counterexample: with only `server.ssl.forceHttpToHttps` set, the
first revision installs the redirect middleware but the second (which
reads `server.forceHttpToHttps` instead) does not, so the installed
sequences differ. -/
theorem init_revisions_differ_cex :
    initTrace1 forceSslOnlyCfg ≠ initTrace2 forceSslOnlyCfg
    ∧ InitAction.useHttpToHttpsRedirect ∈ initTrace1 forceSslOnlyCfg
    ∧ InitAction.useHttpToHttpsRedirect ∉ initTrace2 forceSslOnlyCfg := by
  decide

/-- C6 (amended): the revisions install the same middleware kinds in the
same fixed order but read partly different keys; whenever the
corresponding values agree — redirect flags with equal truthiness,
`server.name` truthy only if `server.poweredBy` is and matching
`response.overrideServerName`, equal cors / body-parser / template
values under each revision's defaulting rule — the two revisions
install exactly the same action sequence. -/
theorem init_revisions_equiv_amended (c : Config)
    (h1 : c.server_forceHttpToHttps.truthy = c.server_ssl_forceHttpToHttps.truthy)
    (h2 : c.server_name.truthy = c.response_overrideServerName.truthy)
    (h3 : c.server_name.truthy = true → c.server_poweredBy.truthy = true)
    (h4 : c.server_configs_cors = cfgGet c.packages_cors_config (.prim .undefined))
    (h5 : c.server_configs_bodyParser_json = c.packages_bodyParser_json)
    (h6 : jsOr c.server_configs_bodyParser_urlencoded extendedTrue
        = cfgGet c.packages_bodyParser_urlencoded extendedTrue)
    (h7 : c.server_template = c.template) :
    initTrace2 c = initTrace1 c := by
  have e1 : forceHttpsSeg2 c = forceHttpsSeg1 c := by
    simp only [forceHttpsSeg1, forceHttpsSeg2, truthy_cfgGet_bool_false, h1]
  have e2 : poweredBySeg2 c = poweredBySeg1 c := by
    unfold poweredBySeg1 poweredBySeg2
    by_cases hpb : c.server_poweredBy.truthy = true
    · simp [hpb, h2]
    · rw [Bool.not_eq_true] at hpb
      have hnm : c.server_name.truthy = false := by
        cases hname : c.server_name.truthy
        · rfl
        · rw [h3 hname] at hpb
          cases hpb
      simp [hpb, hnm]
  have e3 : staticSeg2 c = staticSeg1 c := by
    unfold staticSeg1 staticSeg2
    rcases hp : c.paths_public with _ | p
    · rfl
    · simp [truthy_cfgGet_bool_false]
  have e4 : corsSeg2 c = corsSeg1 c := by
    simp only [corsSeg1, corsSeg2, truthy_cfgGet_bool_false, h4]
  have e5 : bodyParserSeg2 c = bodyParserSeg1 c := by
    simp only [bodyParserSeg1, bodyParserSeg2, h5, h6]
  rw [initTrace1, initTrace2, e1, e2, e3, e4, e5, h7]

/-- Witness for the amended C6: on the empty configuration (where every
corresponding pair of keys agrees) the two revisions produce the same
action sequence. -/
theorem init_revisions_equiv_amended_witness :
    initTrace2 emptyCfg = initTrace1 emptyCfg :=
  init_revisions_equiv_amended emptyCfg (by decide) (by decide) (by decide) (by decide)
    (by decide) (by decide) (by decide)
